import Mathlib

/-!
# Verification of gh-folder-download core logic

A shallow embedding, in Lean 4, of the core logic of the `gh-folder-download`
repository: the download cache (`cache.py`), the retry-with-backoff engine
(`retry.py`), the adaptive rate limiter (`rate_limiter.py`), the parallel
download scheduler (`parallel_downloader.py`) and the pre-flight destination
check of `core.py`.  Python floats are modelled as rationals (`ℚ`), the local
filesystem as a map from path to optional byte size, the network as an oracle
assigning each task a fetch outcome, and random jitter as an oracle sequence
of sampled factors.  Wall-clock durations are not modelled (result `duration`
fields are fixed to 0); concurrency is modelled as the per-task sequential
pipeline each worker runs, linearized over the task list.
-/

namespace GhFolderDownload

/-! ## Cache model (`cache.py`) -/

/-- Embeds `CacheEntry` (cache.py).  `download_time` is epoch seconds as a
rational; `checksums` is the algorithm → hex-digest map as an association
list. -/
structure CacheEntry where
  file_path : String
  sha : String
  size : Nat
  last_modified : String
  download_time : ℚ
  checksums : List (String × String)
deriving DecidableEq, Repr

/-- Embeds `CacheEntry.is_current` (cache.py line 56): current iff stored sha
and size both equal the GitHub-reported ones. -/
def CacheEntry.is_current (e : CacheEntry) (github_sha : String) (github_size : Nat) : Bool :=
  e.sha == github_sha && e.size == github_size

/-- The in-memory `cache_data` dict: an association list keyed by the cache
key string.  Keys are unique in any map produced by the operations below. -/
def CacheMap : Type := List (String × CacheEntry)

instance : DecidableEq CacheMap := inferInstanceAs (DecidableEq (List (String × CacheEntry)))

/-- Dict lookup `cache_data[key]` / `key in cache_data`. -/
def lookupEntry : CacheMap → String → Option CacheEntry
  | [], _ => none
  | (k', e) :: rest, k => if k' = k then some e else lookupEntry rest k

/-- Dict deletion `del cache_data[key]` (removes the key wherever it occurs). -/
def eraseKey (m : CacheMap) (k : String) : CacheMap :=
  m.filter (fun p => p.1 != k)

/-- Dict assignment `cache_data[key] = entry` (upsert). -/
def insertKey : CacheMap → String → CacheEntry → CacheMap
  | [], k, e => [(k, e)]
  | (k', e') :: rest, k, e =>
    if k' = k then (k, e) :: rest else (k', e') :: insertKey rest k e

/-- The local filesystem as seen through `Path.exists` / `Path.stat`:
maps a path to `some size` when the file exists (and `stat` succeeds),
`none` when it does not exist. -/
def Fs : Type := String → Option Nat

/-- Embeds `DownloadCache._get_cache_key` (cache.py line 105):
`f"{repo_full_name}:{ref}:{file_path}"`. -/
def get_cache_key (repo_full_name file_path ref : String) : String :=
  repo_full_name ++ ":" ++ ref ++ ":" ++ file_path

/-- Embeds `DownloadCache.is_file_cached` (cache.py lines 109-166).  Returns
the boolean answer together with the updated `cache_data` map (the method
deletes stale entries as a side effect).  Branches, in source order:
no entry → false; local file missing → false, entry deleted; entry not
current wrt GitHub sha/size → false (entry kept); local size ≠ entry size →
false, entry deleted; otherwise true.  (The `except OSError` arm of the
`stat` call is unreachable here because `Fs` answers `some` exactly when the
file exists.) -/
def is_file_cached (cache : CacheMap) (fs : Fs)
    (repo_full_name file_path ref github_sha : String) (github_size : Nat)
    (local_file_path : String) : Bool × CacheMap :=
  let cache_key := get_cache_key repo_full_name file_path ref
  match lookupEntry cache cache_key with
  | none => (false, cache)
  | some cache_entry =>
    match fs local_file_path with
    | none => (false, eraseKey cache cache_key)
    | some local_size =>
      if !cache_entry.is_current github_sha github_size then
        (false, cache)
      else if local_size != cache_entry.size then
        (false, eraseKey cache cache_key)
      else
        (true, cache)

/-- Embeds `DownloadCache.add_file_to_cache` (cache.py lines 168-214).
`last_modified` (the formatted mtime of the local file, or the current time
as fallback) and `download_time` (`time.time()`) come from the environment;
the periodic `_save_cache` flush does not change the in-memory map. -/
def add_file_to_cache (cache : CacheMap)
    (repo_full_name file_path ref github_sha : String) (github_size : Nat)
    (checksums : List (String × String))
    (last_modified : String) (download_time : ℚ) : CacheMap :=
  let cache_key := get_cache_key repo_full_name file_path ref
  insertKey cache cache_key
    { file_path := file_path
      sha := github_sha
      size := github_size
      last_modified := last_modified
      download_time := download_time
      checksums := checksums }

/-! ## Retry engine model (`retry.py`) -/

/-- Model of the Python exceptions seen by `RetryHandler`: the three
network-related classes of `RETRYABLE_EXCEPTIONS`, `GithubException`
(with HTTP status and message), and any other exception carrying only a
message (e.g. `ValueError`). -/
inductive PyError where
  | connectionError (msg : String)
  | timeoutError (msg : String)
  | osError (msg : String)
  | githubException (status : Nat) (msg : String)
  | other (msg : String)
deriving DecidableEq, Repr

/-- The `str(e)` rendering used for message inspection; the model keeps the
message text itself. -/
def PyError.message : PyError → String
  | .connectionError m => m
  | .timeoutError m => m
  | .osError m => m
  | .githubException _ m => m
  | .other m => m

/-- `RETRYABLE_GITHUB_STATUS` (retry.py lines 50-56). -/
def RETRYABLE_GITHUB_STATUS : List Nat := [403, 500, 502, 503, 504]

/-- The `temporary_indicators` keyword list (retry.py lines 149-156). -/
def temporary_indicators : List String :=
  ["timeout", "connection", "network", "temporary", "unavailable", "rate limit"]

/-- Word character for the regex `\b` boundary: alphanumeric or underscore. -/
def isWordChar (c : Char) : Bool := c.isAlphanum || c == '_'

/-- `w` occurs at the head of `s` followed by a word boundary (end of string
or a non-word character). -/
def wordPrefixMatch : List Char → List Char → Bool
  | [], [] => true
  | [], c :: _ => !isWordChar c
  | _ :: _, [] => false
  | a :: w, b :: s => a == b && wordPrefixMatch w s

/-- Scan `s` for an occurrence of `w` preceded by a word boundary
(`atBoundary` says whether the current position follows a non-word character
or the start of the string) and followed by one. -/
def containsWordAux (w : List Char) (atBoundary : Bool) : List Char → Bool
  | [] => atBoundary && wordPrefixMatch w []
  | c :: rest =>
    (atBoundary && wordPrefixMatch w (c :: rest)) ||
      containsWordAux w (!isWordChar c) rest

/-- `re.search(rf"\b{indicator}\b", error_msg)` on the lowercased message
(retry.py lines 158-163). -/
def containsWord (msg word : String) : Bool :=
  containsWordAux word.toList true (msg.toList.map Char.toLower)

/-- Plain substring test, `needle in haystack` in Python. -/
def containsSub (w : List Char) : List Char → Bool
  | [] => decide (w = [])
  | c :: rest => w.isPrefixOf (c :: rest) || containsSub w rest

/-- `"rate limit" in str(e).lower()`. -/
def msg_has_rate_limit (msg : String) : Bool :=
  containsSub "rate limit".toList (msg.toList.map Char.toLower)

/-- Embeds `RetryHandler._is_retryable` (retry.py lines 134-163): network
exception classes are retryable; a `GithubException` is retryable iff its
status is in `RETRYABLE_GITHUB_STATUS`; any other exception is retryable iff
its message contains a temporary-condition keyword as a whole word. -/
def is_retryable : PyError → Bool
  | .connectionError _ => true
  | .timeoutError _ => true
  | .osError _ => true
  | .githubException status _ => RETRYABLE_GITHUB_STATUS.contains status
  | .other msg => temporary_indicators.any (fun ind => containsWord msg ind)

/-- Embeds `RetryConfig` (retry.py lines 21-36); delays are rationals. -/
structure RetryConfig where
  max_attempts : Nat := 3
  base_delay : ℚ := 1
  max_delay : ℚ := 60
  backoff_factor : ℚ := 2
  jitter : Bool := true
deriving DecidableEq, Repr

/-- Embeds `RetryHandler._calculate_delay` (retry.py lines 165-177).
`jitter_factor` is the value `random.uniform(0.5, 1.5)` would have sampled
for this call; it multiplies the capped exponential delay only when jitter
is enabled. -/
def calculate_delay (attempt : Nat) (config : RetryConfig) (jitter_factor : ℚ) : ℚ :=
  let delay := config.base_delay * config.backoff_factor ^ attempt
  let delay := min delay config.max_delay
  if config.jitter then delay * jitter_factor else delay

/-- The special-case test in `retry` (retry.py lines 110-115): a
`GithubException` with status 403 whose message contains "rate limit". -/
def is_rate_limit_error : PyError → Bool
  | .githubException status msg => status == 403 && msg_has_rate_limit msg
  | _ => false

/-- The delay actually slept after failed attempt `attempt` (retry.py lines
107-127): the backoff delay, floored at 60 seconds when the failure is a
rate-limit 403. -/
def slept_delay (config : RetryConfig) (jf : Nat → ℚ) (attempt : Nat) (e : PyError) : ℚ :=
  let delay := calculate_delay attempt config (jf attempt)
  if is_rate_limit_error e then max delay 60 else delay

/-- Observable outcome of `RetryHandler.retry`: a returned value, an
immediately re-raised non-retryable exception, or a `RetryError` wrapping the
last exception (`none` only in the degenerate `max_attempts = 0` case, where
Python's `last_exception` is still `None`). -/
inductive RetryOutcome (α : Type) where
  | ok (a : α)
  | raised (e : PyError)
  | retryError (last : Option PyError)
deriving DecidableEq, Repr

/-- The loop body of `RetryHandler.retry` (retry.py lines 87-132).
`f n` is the outcome of the (0-indexed) n-th invocation of the wrapped
function, `jf` the jitter oracle, `attempt` the current 0-indexed attempt and
`remaining` how many attempts of `range(max_attempts)` are left.  Returns the
outcome, the number of invocations performed, and the list of delays slept
between attempts. -/
def retryAux {α : Type} (f : Nat → Except PyError α) (config : RetryConfig)
    (jf : Nat → ℚ) (attempt : Nat) : (remaining : Nat) → RetryOutcome α × Nat × List ℚ
  | 0 => (.retryError none, 0, [])
  | remaining + 1 =>
    match f attempt with
    | .ok a => (.ok a, 1, [])
    | .error e =>
      if !is_retryable e then
        (.raised e, 1, [])
      else if remaining = 0 then
        -- attempt + 1 >= max_attempts: break, then raise RetryError
        (.retryError (some e), 1, [])
      else
        let d := slept_delay config jf attempt e
        let r := retryAux f config jf (attempt + 1) remaining
        (r.1, r.2.1 + 1, d :: r.2.2)

/-- Embeds `RetryHandler.retry` (retry.py lines 62-132). -/
def retry {α : Type} (f : Nat → Except PyError α) (config : RetryConfig)
    (jf : Nat → ℚ) : RetryOutcome α × Nat × List ℚ :=
  retryAux f config jf 0 config.max_attempts

/-! ## Rate limiter model (`rate_limiter.py`) -/

/-- Embeds the `RateLimitInfo` dataclass (rate_limiter.py lines 15-43). -/
structure RateLimitInfo where
  limit : ℤ
  remaining : ℤ
  reset_time : ℤ
  used : ℤ
deriving DecidableEq, Repr

/-- `RateLimitInfo.seconds_until_reset` (rate_limiter.py lines 33-36):
`max(0, reset_time - int(time.time()))`, with the current time passed in as
`now`. -/
def seconds_until_reset (r : RateLimitInfo) (now : ℤ) : ℤ :=
  max 0 (r.reset_time - now)

/-- `RateLimitInfo.usage_percentage` (rate_limiter.py lines 38-43). -/
def usage_percentage (r : RateLimitInfo) : ℚ :=
  if r.limit = 0 then 0 else ((r.used : ℚ) / (r.limit : ℚ)) * 100

/-- `GitHubRateLimiter._base_delay` (rate_limiter.py line 70): 100ms. -/
def rate_limiter_base_delay : ℚ := 0.1

/-- Embeds `GitHubRateLimiter._calculate_adaptive_delay` (rate_limiter.py
lines 120-155), parameterized by the limiter's `buffer_requests` and the
current time `now`. -/
def calculate_adaptive_delay (buffer_requests : ℤ) (r : RateLimitInfo) (now : ℤ) : ℚ :=
  if r.remaining ≤ 0 then
    -- No requests remaining, wait until reset
    ((seconds_until_reset r now : ℤ) : ℚ) + 1
  else
    let remaining_time := seconds_until_reset r now
    if remaining_time ≤ 0 then rate_limiter_base_delay
    else
      let available_requests := r.remaining - buffer_requests
      if available_requests ≤ 0 then
        -- In the buffer zone, slow down significantly (up to 1 minute)
        min 60 ((remaining_time : ℚ) / 10)
      else
        let optimal_delay := (remaining_time : ℚ) / (available_requests : ℚ)
        let usage := usage_percentage r
        let adaptive_factor : ℚ := if usage > 80 then 2 else if usage > 60 then 3/2 else 1
        let delay := max rate_limiter_base_delay (optimal_delay * adaptive_factor)
        min 30 delay

/-! ## Parallel download scheduler model (`parallel_downloader.py`) -/

/-- Embeds the `DownloadTask` dataclass (parallel_downloader.py lines 20-30). -/
structure DownloadTask where
  file_path : String
  download_url : String
  local_path : String
  expected_size : Option Nat
  sha : String
  repo_full_name : String
  ref : String
deriving DecidableEq, Repr

/-- Embeds the `DownloadResult` dataclass (parallel_downloader.py lines
33-43).  `duration` is fixed to 0 (wall-clock time is not modelled). -/
structure DownloadResult where
  task : DownloadTask
  success : Bool
  error : Option String := none
  duration : ℚ := 0
  bytes_downloaded : Nat := 0
  from_cache : Bool := false
  integrity_verified : Bool := false
deriving DecidableEq, Repr

/-- What the network does for one task's `session.get`: an HTTP response
(status, reason phrase, and the total bytes the 200-body streams to disk),
an `asyncio.TimeoutError`, an `aiohttp.ClientError`/`OSError`/`IOError`, or
an exception of any other class escaping the worker coroutine (caught only
by `asyncio.gather(..., return_exceptions=True)`). -/
inductive FetchOutcome where
  | response (status : Nat) (reason : String) (body_bytes : Nat)
  | timeoutError
  | clientError (msg : String)
  | workerCrash (msg : String)
deriving DecidableEq, Repr

/-- The per-`ParallelDownloader` configuration (parallel_downloader.py lines
49-77). -/
structure DownloaderConfig where
  max_concurrent_downloads : Nat := 5
  chunk_size : Nat := 8192
  timeout : Nat := 30
  verify_integrity : Bool := true
  use_cache : Bool := true
deriving DecidableEq, Repr

/-- Environment values consumed by `_add_to_cache`: the checksums computed
from the written file and the mtime/clock readings recorded in the entry. -/
structure CacheWriteEnv where
  checksums : List (String × String)
  last_modified : String
  download_time : ℚ
deriving DecidableEq, Repr

/-- Embeds `ParallelDownloader._check_cache` (parallel_downloader.py lines
302-314): delegates to `is_file_cached` with `github_size = expected_size or
0`.  Also returns the (possibly evicted-from) cache map. -/
def check_cache (cache : CacheMap) (fs : Fs) (task : DownloadTask) : Bool × CacheMap :=
  is_file_cached cache fs task.repo_full_name task.file_path task.ref
    task.sha (task.expected_size.getD 0) task.local_path

/-- Embeds `ParallelDownloader._verify_file_integrity` (parallel_downloader.py
lines 316-340) for a file whose stream just wrote `written` bytes:
`verify_file_size` raises `IntegrityError` iff an expected size is present
and differs from the written size (integrity.py lines 70-108), and
`verify_file_content` on the just-written file raises nothing
(integrity.py lines 148-219); the `except IntegrityError` arm returns
false. -/
def verify_file_integrity (task : DownloadTask) (written : Nat) : Bool :=
  match task.expected_size with
  | none => true
  | some s => written == s

/-- Embeds `ParallelDownloader._download_single_file` (parallel_downloader.py
lines 181-300) for one task, given the cache/filesystem state and the
network outcome for this task.  Returns `.error msg` when an exception of an
unhandled class escapes the coroutine (the `workerCrash` outcome), otherwise
`.ok` with the `DownloadResult` the coroutine returns; alongside it the
number of HTTP fetches issued (0 on a cache hit, 1 otherwise) and the
updated cache map. -/
def download_single_file (cfg : DownloaderConfig) (env : CacheWriteEnv)
    (cache : CacheMap) (fs : Fs) (outcome : FetchOutcome) (task : DownloadTask) :
    Except String DownloadResult × Nat × CacheMap :=
  -- `if self.cache and self._check_cache(task)`
  let checked := if cfg.use_cache then check_cache cache fs task else (false, cache)
  if checked.1 then
    (.ok { task := task
           success := true
           bytes_downloaded := task.expected_size.getD 0
           from_cache := true
           integrity_verified := true },  -- assume cached files are verified
     0, checked.2)
  else
    match outcome with
    | .workerCrash msg => (.error msg, 1, checked.2)
    | .timeoutError =>
      (.ok { task := task
             success := false
             error := some ("Download timeout after " ++ toString cfg.timeout ++ "s") },
       1, checked.2)
    | .clientError msg =>
      (.ok { task := task
             success := false
             error := some ("Unexpected error: " ++ msg) },
       1, checked.2)
    | .response status reason body_bytes =>
      if status != 200 then
        (.ok { task := task
               success := false
               error := some ("HTTP " ++ toString status ++ ": " ++ reason) },
         1, checked.2)
      else
        let integrity_verified :=
          if cfg.verify_integrity then verify_file_integrity task body_bytes else true
        let cache' :=
          if cfg.use_cache && integrity_verified then
            add_file_to_cache checked.2 task.repo_full_name task.file_path task.ref
              task.sha (task.expected_size.getD 0) env.checksums
              env.last_modified env.download_time
          else checked.2
        (.ok { task := task
               success := true
               bytes_downloaded := body_bytes
               integrity_verified := integrity_verified },
         1, cache')

/-- The exception-processing loop after `asyncio.gather` in `download_files`
(parallel_downloader.py lines 144-160): an exception coming back from a
worker is converted into a failure `DownloadResult` for that task. -/
def gather_result (task : DownloadTask) : Except String DownloadResult → DownloadResult
  | .error msg => { task := task, success := false, error := some msg }
  | .ok r => r

/-- The scheduling of the workers over the task list, linearized; `i` is the
index of the next task, `outcome i` its network outcome. -/
def download_files_aux (cfg : DownloaderConfig) (env : CacheWriteEnv) (fs : Fs)
    (outcome : Nat → FetchOutcome) :
    List DownloadTask → Nat → CacheMap → List DownloadResult × CacheMap
  | [], _, cache => ([], cache)
  | task :: rest, i, cache =>
    let w := download_single_file cfg env cache fs (outcome i) task
    let r := gather_result task w.1
    let tail := download_files_aux cfg env fs outcome rest (i + 1) w.2.2
    (r :: tail.1, tail.2)

/-- Embeds `ParallelDownloader.download_files` (parallel_downloader.py lines
101-179): one processed `DownloadResult` per input task (the empty list for
no tasks). -/
def download_files (cfg : DownloaderConfig) (env : CacheWriteEnv)
    (cache : CacheMap) (fs : Fs) (outcome : Nat → FetchOutcome)
    (download_tasks : List DownloadTask) : List DownloadResult × CacheMap :=
  download_files_aux cfg env fs outcome download_tasks 0 cache

/-- Whether a network outcome is a download failure for the worker: non-200
response, timeout, client/OS error, or an exception escaping the worker. -/
def fetch_fails : FetchOutcome → Bool
  | .response status _ _ => status != 200
  | .timeoutError => true
  | .clientError _ => true
  | .workerCrash _ => true

/-- The `self.stats` counters of `ParallelDownloader` (parallel_downloader.py
lines 92-99). -/
structure Stats where
  total_downloads : Nat := 0
  successful_downloads : Nat := 0
  failed_downloads : Nat := 0
  cached_files : Nat := 0
  total_bytes : Nat := 0
  total_time : ℚ := 0
deriving DecidableEq, Repr

/-- The dict returned by `get_stats`: the counters plus the derived
metrics. -/
structure ComputedStats extends Stats where
  average_speed_mbps : ℚ
  success_rate : ℚ
  cache_hit_rate : ℚ
deriving DecidableEq, Repr

/-- Embeds `ParallelDownloader.get_stats` (parallel_downloader.py lines
389-412). -/
def get_stats (s : Stats) : ComputedStats :=
  { s with
    average_speed_mbps :=
      if s.total_time > 0 then ((s.total_bytes : ℚ) / (1024 * 1024)) / s.total_time else 0
    success_rate :=
      if s.total_downloads > 0 then
        ((s.successful_downloads : ℚ) / (s.total_downloads : ℚ)) * 100
      else 0
    cache_hit_rate :=
      if s.total_downloads > 0 then
        ((s.cached_files : ℚ) / (s.total_downloads : ℚ)) * 100
      else 0 }

/-! ## Pre-flight destination check (`core.py`) -/

/-- The observable outcome of the task-collection walk of
`download_folder_parallel` (core.py lines 83-139), abstracted: the tasks the
walk would produce and the number of directory listings it fetches from the
API while doing so. -/
structure CollectOutcome where
  tasks : List DownloadTask
  dir_listings : Nat
deriving DecidableEq, Repr

/-- The value `download_folder_parallel` returns, together with the
observable actions it took on the way. -/
structure DfpReturn where
  total_files : Nat
  total_size : Nat
  removed_existing : Bool
  dirs_listed : Nat
  tasks_scheduled : Nat
deriving DecidableEq, Repr

/-- Embeds the control flow of `download_folder_parallel` (core.py lines
48-175) around the pre-flight destination check: `dest_exists` is
`exists(fullpath)` at entry.  If the destination exists and `force` is off,
the function logs an error and returns `{"total_files": 0, "total_size": 0}`
immediately — it raises nothing (`Except.error` is never produced) and
neither walks a directory nor schedules a task.  Otherwise (after an
`rmtree` in force mode) it runs the collection walk and hands the collected
tasks to `ParallelDownloader.download_files`. -/
def download_folder_parallel (dest_exists force : Bool) (collect : CollectOutcome)
    (cfg : DownloaderConfig) (env : CacheWriteEnv) (cache : CacheMap) (fs : Fs)
    (outcome : Nat → FetchOutcome) : Except String DfpReturn :=
  if dest_exists && !force then
    .ok { total_files := 0, total_size := 0, removed_existing := false
          dirs_listed := 0, tasks_scheduled := 0 }
  else
    let removed := dest_exists
    let download_tasks := collect.tasks
    if download_tasks.isEmpty then
      .ok { total_files := 0, total_size := 0, removed_existing := removed
            dirs_listed := collect.dir_listings, tasks_scheduled := 0 }
    else
      let results := (download_files cfg env cache fs outcome download_tasks).1
      .ok { total_files := (results.filter (fun r => r.success)).length
            total_size := ((results.filter (fun r => r.success)).map
              (fun r => r.bytes_downloaded)).sum
            removed_existing := removed
            dirs_listed := collect.dir_listings
            tasks_scheduled := download_tasks.length }

/-! ## Helper lemmas -/

theorem lookupEntry_insertKey_self (m : CacheMap) (k : String) (e : CacheEntry) :
    lookupEntry (insertKey m k e) k = some e := by
  induction m with
  | nil => simp [insertKey, lookupEntry]
  | cons p rest ih =>
    obtain ⟨k', e'⟩ := p
    by_cases h : k' = k
    · simp [insertKey, lookupEntry, h]
    · simp [insertKey, lookupEntry, h, ih]

theorem lookupEntry_eraseKey_self (m : CacheMap) (k : String) :
    lookupEntry (eraseKey m k) k = none := by
  induction m with
  | nil => rfl
  | cons p rest ih =>
    obtain ⟨k', e'⟩ := p
    by_cases h : k' = k
    · simpa [eraseKey, List.filter_cons, h] using ih
    · simpa [eraseKey, List.filter_cons, h, lookupEntry] using ih

/-! ## C2: cache currency -/

/-- C2: for every entry added via `add_file_to_cache` with hash `H` and size
`S`, `is_file_cached` with the same repository, path and ref answers true
when queried with the same `H` and `S` while the local file exists with byte
length `S`, and answers false when queried with a different hash, a
different size, or after the local file is deleted. -/
theorem C2_cache_currency (cache : CacheMap) (fs : Fs)
    (repo path ref H lm : String) (S : Nat) (cks : List (String × String))
    (dt : ℚ) (lp : String) :
    (fs lp = some S →
      (is_file_cached (add_file_to_cache cache repo path ref H S cks lm dt)
        fs repo path ref H S lp).1 = true) ∧
    (∀ H', H' ≠ H →
      (is_file_cached (add_file_to_cache cache repo path ref H S cks lm dt)
        fs repo path ref H' S lp).1 = false) ∧
    (∀ S', S' ≠ S →
      (is_file_cached (add_file_to_cache cache repo path ref H S cks lm dt)
        fs repo path ref H S' lp).1 = false) ∧
    (fs lp = none →
      (is_file_cached (add_file_to_cache cache repo path ref H S cks lm dt)
        fs repo path ref H S lp).1 = false) := by
  have hlook : lookupEntry (add_file_to_cache cache repo path ref H S cks lm dt)
      (get_cache_key repo path ref) = some ⟨path, H, S, lm, dt, cks⟩ :=
    lookupEntry_insertKey_self cache _ _
  refine ⟨fun hfs => ?_, fun H' hne => ?_, fun S' hne => ?_, fun hfs => ?_⟩
  · simp [is_file_cached, hlook, hfs, CacheEntry.is_current]
  · cases hfs : fs lp with
    | none => simp [is_file_cached, hlook, hfs]
    | some sz => simp [is_file_cached, hlook, hfs, CacheEntry.is_current, Ne.symm hne]
  · cases hfs : fs lp with
    | none => simp [is_file_cached, hlook, hfs]
    | some sz => simp [is_file_cached, hlook, hfs, CacheEntry.is_current, Ne.symm hne]
  · simp [is_file_cached, hlook, hfs]

/-- Witness for C2 at a concrete entry and filesystem. -/
theorem C2_cache_currency_witness :
    (is_file_cached (add_file_to_cache [] "o/r" "a.txt" "main" "sha1" 3 [] "t0" 0)
      (fun _ => some 3) "o/r" "a.txt" "main" "sha1" 3 "out/a.txt").1 = true ∧
    (is_file_cached (add_file_to_cache [] "o/r" "a.txt" "main" "sha1" 3 [] "t0" 0)
      (fun _ => some 3) "o/r" "a.txt" "main" "sha2" 3 "out/a.txt").1 = false ∧
    (is_file_cached (add_file_to_cache [] "o/r" "a.txt" "main" "sha1" 3 [] "t0" 0)
      (fun _ => some 3) "o/r" "a.txt" "main" "sha1" 4 "out/a.txt").1 = false ∧
    (is_file_cached (add_file_to_cache [] "o/r" "a.txt" "main" "sha1" 3 [] "t0" 0)
      (fun _ => none) "o/r" "a.txt" "main" "sha1" 3 "out/a.txt").1 = false := by
  refine ⟨?_, ?_, ?_, ?_⟩
  · exact (C2_cache_currency [] (fun _ => some 3) "o/r" "a.txt" "main" "sha1" "t0" 3 [] 0
      "out/a.txt").1 rfl
  · exact (C2_cache_currency [] (fun _ => some 3) "o/r" "a.txt" "main" "sha1" "t0" 3 [] 0
      "out/a.txt").2.1 "sha2" (by decide)
  · exact (C2_cache_currency [] (fun _ => some 3) "o/r" "a.txt" "main" "sha1" "t0" 3 [] 0
      "out/a.txt").2.2.1 4 (by decide)
  · exact (C2_cache_currency [] (fun _ => none) "o/r" "a.txt" "main" "sha1" "t0" 3 [] 0
      "out/a.txt").2.2.2 rfl

/-! ## C5: staleness handling of `is_file_cached` -/

/-- C5 counterexample: an entry whose stored hash differs from the
remote-reported hash makes `is_file_cached` answer false, but the entry is
NOT removed from the cache — refuting the claim that every kind of
staleness removes the entry (cache.py lines 148-151 return without `del`). -/
theorem C5_remote_mismatch_keeps_entry :
    (is_file_cached (add_file_to_cache [] "o/r" "a.txt" "main" "sha1" 1 [] "t0" 0)
      (fun _ => some 1) "o/r" "a.txt" "main" "sha2" 1 "out/a.txt").1 = false ∧
    lookupEntry
      (is_file_cached (add_file_to_cache [] "o/r" "a.txt" "main" "sha1" 1 [] "t0" 0)
        (fun _ => some 1) "o/r" "a.txt" "main" "sha2" 1 "out/a.txt").2
      (get_cache_key "o/r" "a.txt" "main") =
      some ⟨"a.txt", "sha1", 1, "t0", 0, []⟩ := by
  constructor <;> rfl

/-- C5 (amended): when `is_file_cached` finds the local file missing, or
finds the local file's actual size differing from the entry's recorded size,
it returns false and removes the entry; when the stored hash or size differs
from the remote-reported hash or size (entry not current), it returns false
but leaves the entry in the cache. -/
theorem C5_stale_entry_eviction (cache : CacheMap) (fs : Fs)
    (repo path ref gsha : String) (gsize : Nat) (lp : String) (e : CacheEntry)
    (hlook : lookupEntry cache (get_cache_key repo path ref) = some e) :
    (fs lp = none →
      (is_file_cached cache fs repo path ref gsha gsize lp).1 = false ∧
      lookupEntry (is_file_cached cache fs repo path ref gsha gsize lp).2
        (get_cache_key repo path ref) = none) ∧
    (∀ sz, fs lp = some sz → e.is_current gsha gsize = true → sz ≠ e.size →
      (is_file_cached cache fs repo path ref gsha gsize lp).1 = false ∧
      lookupEntry (is_file_cached cache fs repo path ref gsha gsize lp).2
        (get_cache_key repo path ref) = none) ∧
    (∀ sz, fs lp = some sz → e.is_current gsha gsize = false →
      (is_file_cached cache fs repo path ref gsha gsize lp).1 = false ∧
      (is_file_cached cache fs repo path ref gsha gsize lp).2 = cache) := by
  refine ⟨fun hfs => ?_, fun sz hfs hcur hne => ?_, fun sz hfs hcur => ?_⟩
  · constructor
    · simp [is_file_cached, hlook, hfs]
    · simp [is_file_cached, hlook, hfs, lookupEntry_eraseKey_self]
  · constructor
    · simp [is_file_cached, hlook, hfs, hcur, hne]
    · simp [is_file_cached, hlook, hfs, hcur, hne, lookupEntry_eraseKey_self]
  · constructor <;> simp [is_file_cached, hlook, hfs, hcur]

/-- Witness for C5 (amended): local-file-missing and local-size-mismatch
both evict; a remote hash mismatch answers false with the cache unchanged. -/
theorem C5_stale_entry_eviction_witness :
    (lookupEntry
      (is_file_cached (add_file_to_cache [] "o/r" "a.txt" "main" "sha1" 1 [] "t0" 0)
        (fun _ => none) "o/r" "a.txt" "main" "sha1" 1 "out/a.txt").2
      (get_cache_key "o/r" "a.txt" "main") = none) ∧
    (lookupEntry
      (is_file_cached (add_file_to_cache [] "o/r" "a.txt" "main" "sha1" 1 [] "t0" 0)
        (fun _ => some 7) "o/r" "a.txt" "main" "sha1" 1 "out/a.txt").2
      (get_cache_key "o/r" "a.txt" "main") = none) ∧
    ((is_file_cached (add_file_to_cache [] "o/r" "a.txt" "main" "sha1" 1 [] "t0" 0)
        (fun _ => some 1) "o/r" "a.txt" "main" "sha2" 1 "out/a.txt").2 =
      add_file_to_cache [] "o/r" "a.txt" "main" "sha1" 1 [] "t0" 0) := by
  refine ⟨?_, ?_, ?_⟩
  · exact ((C5_stale_entry_eviction (add_file_to_cache [] "o/r" "a.txt" "main" "sha1" 1 [] "t0" 0)
      (fun _ => none) "o/r" "a.txt" "main" "sha1" 1 "out/a.txt" ⟨"a.txt", "sha1", 1, "t0", 0, []⟩
      rfl).1 rfl).2
  · exact ((C5_stale_entry_eviction (add_file_to_cache [] "o/r" "a.txt" "main" "sha1" 1 [] "t0" 0)
      (fun _ => some 7) "o/r" "a.txt" "main" "sha1" 1 "out/a.txt" ⟨"a.txt", "sha1", 1, "t0", 0, []⟩
      rfl).2.1 7 rfl rfl (by decide)).2
  · exact ((C5_stale_entry_eviction (add_file_to_cache [] "o/r" "a.txt" "main" "sha1" 1 [] "t0" 0)
      (fun _ => some 1) "o/r" "a.txt" "main" "sha2" 1 "out/a.txt" ⟨"a.txt", "sha1", 1, "t0", 0, []⟩
      rfl).2.2 1 rfl rfl).2

/-! ## C10: `get_stats` never divides by zero -/

/-- C10: `get_stats` guards its divisions — `average_speed_mbps` is 0 when
`total_time = 0`, `success_rate` and `cache_hit_rate` are 0 when
`total_downloads = 0`, and otherwise the three metrics are
`total_bytes/(1024*1024)/total_time`, `successful/total*100` and
`cached/total*100`. -/
theorem C10_get_stats_guards (s : Stats) :
    (s.total_time = 0 → (get_stats s).average_speed_mbps = 0) ∧
    (s.total_downloads = 0 →
      (get_stats s).success_rate = 0 ∧ (get_stats s).cache_hit_rate = 0) ∧
    (0 < s.total_time →
      (get_stats s).average_speed_mbps =
        ((s.total_bytes : ℚ) / (1024 * 1024)) / s.total_time) ∧
    (0 < s.total_downloads →
      (get_stats s).success_rate =
          ((s.successful_downloads : ℚ) / (s.total_downloads : ℚ)) * 100 ∧
      (get_stats s).cache_hit_rate =
          ((s.cached_files : ℚ) / (s.total_downloads : ℚ)) * 100) := by
  refine ⟨fun h => ?_, fun h => ?_, fun h => ?_, fun h => ?_⟩ <;>
    simp [get_stats, h]

/-- Witness for C10 at an empty and at a populated statistics record. -/
theorem C10_get_stats_guards_witness :
    (get_stats {}).average_speed_mbps = 0 ∧
    (get_stats {}).success_rate = 0 ∧
    (get_stats {}).cache_hit_rate = 0 ∧
    (get_stats { total_downloads := 4, successful_downloads := 3, cached_files := 1,
                 total_bytes := 2097152, total_time := 2 }).average_speed_mbps = 1 ∧
    (get_stats { total_downloads := 4, successful_downloads := 3, cached_files := 1,
                 total_bytes := 2097152, total_time := 2 }).success_rate = 75 := by
  refine ⟨(C10_get_stats_guards {}).1 rfl, ((C10_get_stats_guards {}).2.1 rfl).1,
    ((C10_get_stats_guards {}).2.1 rfl).2, ?_, ?_⟩
  · rw [(C10_get_stats_guards { total_downloads := 4, successful_downloads := 3,
                                cached_files := 1, total_bytes := 2097152, total_time := 2 }).2.2.1 (by norm_num)]
    norm_num
  · rw [((C10_get_stats_guards { total_downloads := 4, successful_downloads := 3,
                                 cached_files := 1, total_bytes := 2097152, total_time := 2 }).2.2.2 (by norm_num)).1]
    norm_num

/-! ## C3, C4: retry behaviour -/

/-- Unfolding of the retry loop when every invocation raises a retryable
error: `remaining + 1` further attempts perform `remaining + 1` invocations,
sleep `remaining` backoff delays, and end in a `RetryError` wrapping the
error of the last attempt. -/
theorem retryAux_all_fail {α : Type} (f : Nat → Except PyError α) (e : Nat → PyError)
    (config : RetryConfig) (jf : Nat → ℚ)
    (hf : ∀ n, f n = .error (e n)) (hr : ∀ n, is_retryable (e n) = true) :
    ∀ remaining attempt,
      retryAux f config jf attempt (remaining + 1) =
        ((.retryError (some (e (attempt + remaining))) : RetryOutcome α), remaining + 1,
          (List.range remaining).map
            (fun i => slept_delay config jf (attempt + i) (e (attempt + i)))) := by
  intro remaining
  induction remaining with
  | zero => intro attempt; simp [retryAux, hf attempt, hr attempt]
  | succ r ih =>
    intro attempt
    have hstep := ih (attempt + 1)
    have harith : attempt + 1 + r = attempt + (r + 1) := by omega
    have hrange : (List.range (r + 1)).map
        (fun i => slept_delay config jf (attempt + i) (e (attempt + i))) =
        slept_delay config jf attempt (e attempt) ::
          (List.range r).map
            (fun i => slept_delay config jf (attempt + 1 + i) (e (attempt + 1 + i))) := by
      rw [List.range_succ_eq_map, List.map_cons, List.map_map]
      refine congrArg₂ _ (by simp) (List.map_congr_left fun i _ => ?_)
      have h1 : attempt + (i + 1) = attempt + 1 + i := by omega
      simp [Function.comp, h1]
    rw [retryAux, hf attempt]
    simp [hr attempt, hstep, hrange, harith]

/-- C3: with `max_attempts ≥ 1`, an operation that always raises a retryable
error is invoked exactly `max_attempts` times and `retry` then raises a
`RetryError` wrapping the last underlying error; an operation whose first
invocation raises a non-retryable error is invoked exactly once and that
error is re-raised immediately. -/
theorem C3_retry_exhaustion {α : Type} (f : Nat → Except PyError α) (e : Nat → PyError)
    (config : RetryConfig) (jf : Nat → ℚ) (hmax : 1 ≤ config.max_attempts) :
    ((∀ n, f n = .error (e n)) → (∀ n, is_retryable (e n) = true) →
      (retry f config jf).2.1 = config.max_attempts ∧
      (retry f config jf).1 = .retryError (some (e (config.max_attempts - 1)))) ∧
    (∀ e0, f 0 = .error e0 → is_retryable e0 = false →
      (retry f config jf).1 = .raised e0 ∧ (retry f config jf).2.1 = 1) := by
  obtain ⟨m, hm⟩ : ∃ m, config.max_attempts = m + 1 :=
    ⟨config.max_attempts - 1, by omega⟩
  constructor
  · intro hf hr
    rw [retry, hm, retryAux_all_fail f e config jf hf hr m 0]
    simp [hm]
  · intro e0 hf0 hr0
    rw [retry, hm]
    cases m with
    | zero => simp [retryAux, hf0, hr0]
    | succ k => simp [retryAux, hf0, hr0]

/-- Witness for C3: with the default config (3 attempts), a connection error
on every call exhausts all 3 attempts; a plain `ValueError`-style message is
re-raised after a single call. -/
theorem C3_retry_exhaustion_witness :
    (retry (fun _ => (.error (.connectionError "down") : Except PyError Nat))
      {} (fun _ => 1)).2.1 = 3 ∧
    (retry (fun _ => (.error (.connectionError "down") : Except PyError Nat))
      {} (fun _ => 1)).1 = .retryError (some (.connectionError "down")) ∧
    (retry (fun _ => (.error (.other "bad value") : Except PyError Nat))
      {} (fun _ => 1)).1 = .raised (.other "bad value") ∧
    (retry (fun _ => (.error (.other "bad value") : Except PyError Nat))
      {} (fun _ => 1)).2.1 = 1 := by
  have h1 := (C3_retry_exhaustion
    (fun _ => (.error (.connectionError "down") : Except PyError Nat))
    (fun _ => .connectionError "down") {} (fun _ => 1) (by norm_num)).1
    (fun _ => rfl) (fun _ => rfl)
  have h2 := (C3_retry_exhaustion
    (fun _ => (.error (.other "bad value") : Except PyError Nat))
    (fun _ => .other "bad value") {} (fun _ => 1) (by norm_num)).2
    (.other "bad value") rfl (by decide)
  exact ⟨h1.1, h1.2, h2.1, h2.2⟩

/-- C4: when every invocation fails with a retryable error, the delay slept
after the 0-indexed failed attempt `n` is `min(max_delay, base_delay *
backoff_factor^n)`, multiplied by the sampled jitter factor when jitter is
enabled, and floored at 60 seconds when the failure is a GitHub 403 whose
message contains "rate limit". -/
theorem C4_backoff_delay_formula {α : Type} (f : Nat → Except PyError α)
    (e : Nat → PyError) (config : RetryConfig) (jf : Nat → ℚ)
    (hf : ∀ n, f n = .error (e n)) (hr : ∀ n, is_retryable (e n) = true) :
    (retry f config jf).2.2 =
      (List.range (config.max_attempts - 1)).map (fun n =>
        let capped := min config.max_delay (config.base_delay * config.backoff_factor ^ n)
        let jittered := if config.jitter then capped * jf n else capped
        if is_rate_limit_error (e n) then max jittered 60 else jittered) := by
  cases hm : config.max_attempts with
  | zero => simp [retry, hm, retryAux]
  | succ m =>
    rw [retry, hm, retryAux_all_fail f e config jf hf hr m 0]
    simp only [Nat.add_sub_cancel]
    refine List.map_congr_left fun i _ => ?_
    simp [slept_delay, calculate_delay, Nat.zero_add, min_comm]

/-- Witness for C4: with `base_delay = 1`, `backoff_factor = 2`, jitter
disabled and 4 attempts, the three backoff delays are exactly 1, 2, 4. -/
theorem C4_backoff_delay_formula_witness :
    (retry (fun _ => (.error (.connectionError "down") : Except PyError Nat))
      { max_attempts := 4, base_delay := 1, max_delay := 60, backoff_factor := 2,
        jitter := false }
      (fun _ => 1)).2.2 = [1, 2, 4] := by
  rw [C4_backoff_delay_formula
    (fun _ => (.error (.connectionError "down") : Except PyError Nat))
    (fun _ => .connectionError "down")
    { max_attempts := 4, base_delay := 1, max_delay := 60, backoff_factor := 2,
      jitter := false }
    (fun _ => 1) (fun _ => rfl) (fun _ => rfl)]
  norm_num [List.range_succ, is_rate_limit_error]

/-! ## C1: scheduler completeness -/

/-- Per-worker fact: after the gather-loop conversion, the result of any one
task carries that task, and when it was not served from cache and the
network outcome is a failure, the result is a failure with an error message
set. -/
theorem download_single_file_result (cfg : DownloaderConfig) (env : CacheWriteEnv)
    (cache : CacheMap) (fs : Fs) (o : FetchOutcome) (task : DownloadTask) :
    (gather_result task (download_single_file cfg env cache fs o task).1).task = task ∧
    ((gather_result task (download_single_file cfg env cache fs o task).1).from_cache = false →
      fetch_fails o = true →
      (gather_result task (download_single_file cfg env cache fs o task).1).success = false ∧
      (gather_result task (download_single_file cfg env cache fs o task).1).error.isSome = true) := by
  by_cases hc : (if cfg.use_cache then check_cache cache fs task else (false, cache)).1 = true
  · simp [download_single_file, hc, gather_result]
  · rw [Bool.not_eq_true] at hc
    cases o with
    | response status reason body_bytes =>
      by_cases hs : status = 200
      · simp [download_single_file, hc, gather_result, fetch_fails, hs]
      · simp [download_single_file, hc, gather_result, fetch_fails, hs]
    | timeoutError => simp [download_single_file, hc, gather_result, fetch_fails]
    | clientError msg => simp [download_single_file, hc, gather_result, fetch_fails]
    | workerCrash msg => simp [download_single_file, hc, gather_result, fetch_fails]

/-- The scheduling loop produces one result per task; the `j`-th result
belongs to the `j`-th task and fails when that task's outcome fails and it
was not a cache hit. -/
theorem download_files_aux_spec (cfg : DownloaderConfig) (env : CacheWriteEnv)
    (fs : Fs) (outcome : Nat → FetchOutcome) :
    ∀ (tasks : List DownloadTask) (i0 : Nat) (cache : CacheMap),
      (download_files_aux cfg env fs outcome tasks i0 cache).1.length = tasks.length ∧
      ∀ j r t, (download_files_aux cfg env fs outcome tasks i0 cache).1.get? j = some r →
        tasks.get? j = some t →
        r.task = t ∧ (r.from_cache = false → fetch_fails (outcome (i0 + j)) = true →
          r.success = false ∧ r.error.isSome = true) := by
  intro tasks
  induction tasks with
  | nil => intro i0 cache; simp [download_files_aux]
  | cons task rest ih =>
    intro i0 cache
    constructor
    · simp [download_files_aux, (ih (i0 + 1)
        (download_single_file cfg env cache fs (outcome i0) task).2.2).1]
    · intro j r t hr ht
      cases j with
      | zero =>
        simp only [download_files_aux, List.get?] at hr ht
        obtain rfl : gather_result task
            (download_single_file cfg env cache fs (outcome i0) task).1 = r :=
          Option.some.inj hr
        obtain rfl : task = t := Option.some.inj ht
        simpa using download_single_file_result cfg env cache fs (outcome i0) task
      | succ k =>
        simp only [download_files_aux, List.get?] at hr ht
        have hrec := (ih (i0 + 1)
          (download_single_file cfg env cache fs (outcome i0) task).2.2).2 k r t hr ht
        have harith : i0 + 1 + k = i0 + (k + 1) := by omega
        exact ⟨hrec.1, by rw [← harith]; exact hrec.2⟩

/-- C1: `download_files` returns exactly one `DownloadResult` per input
task, the `j`-th result belonging to the `j`-th task; a task that was not
served from cache and whose download fails (non-200 status, timeout,
client/OS error, or an exception escaping the worker coroutine) yields a
failure result carrying an error message instead of propagating an
exception, so no individual task failure aborts the batch. -/
theorem C1_scheduler_completeness (cfg : DownloaderConfig) (env : CacheWriteEnv)
    (cache : CacheMap) (fs : Fs) (outcome : Nat → FetchOutcome)
    (tasks : List DownloadTask) :
    (download_files cfg env cache fs outcome tasks).1.length = tasks.length ∧
    ∀ j r t, (download_files cfg env cache fs outcome tasks).1.get? j = some r →
      tasks.get? j = some t →
      r.task = t ∧ (r.from_cache = false → fetch_fails (outcome j) = true →
        r.success = false ∧ r.error.isSome = true) := by
  have h := download_files_aux_spec cfg env fs outcome tasks 0 cache
  exact ⟨h.1, fun j r t hr ht => by simpa using h.2 j r t hr ht⟩

/-- Witness for C1: two tasks, the first answered HTTP 404 and the second
timing out, give exactly two results and the first is a failure result. -/
theorem C1_scheduler_completeness_witness :
    (download_files { use_cache := false } ⟨[], "", 0⟩ [] (fun _ => none)
      (fun i => if i = 0 then .response 404 "Not Found" 0 else .timeoutError)
      [⟨"a.txt", "u1", "out/a.txt", some 3, "s1", "o/r", "main"⟩,
       ⟨"b.txt", "u2", "out/b.txt", some 5, "s2", "o/r", "main"⟩]).1.length = 2 ∧
    (download_files { use_cache := false } ⟨[], "", 0⟩ [] (fun _ => none)
      (fun i => if i = 0 then .response 404 "Not Found" 0 else .timeoutError)
      [⟨"a.txt", "u1", "out/a.txt", some 3, "s1", "o/r", "main"⟩,
       ⟨"b.txt", "u2", "out/b.txt", some 5, "s2", "o/r", "main"⟩]).1.get? 0 =
      some { task := ⟨"a.txt", "u1", "out/a.txt", some 3, "s1", "o/r", "main"⟩,
             success := false, error := some "HTTP 404: Not Found" } ∧
    ({ task := ⟨"a.txt", "u1", "out/a.txt", some 3, "s1", "o/r", "main"⟩,
       success := false, error := some "HTTP 404: Not Found" } : DownloadResult).success
        = false ∧
    ({ task := ⟨"a.txt", "u1", "out/a.txt", some 3, "s1", "o/r", "main"⟩,
       success := false, error := some "HTTP 404: Not Found" } : DownloadResult).error.isSome
        = true := by
  have h := C1_scheduler_completeness { use_cache := false } ⟨[], "", 0⟩ [] (fun _ => none)
    (fun i => if i = 0 then .response 404 "Not Found" 0 else .timeoutError)
    [⟨"a.txt", "u1", "out/a.txt", some 3, "s1", "o/r", "main"⟩,
     ⟨"b.txt", "u2", "out/b.txt", some 5, "s2", "o/r", "main"⟩]
  have hget : (download_files { use_cache := false } ⟨[], "", 0⟩ [] (fun _ => none)
      (fun i => if i = 0 then .response 404 "Not Found" 0 else .timeoutError)
      [⟨"a.txt", "u1", "out/a.txt", some 3, "s1", "o/r", "main"⟩,
       ⟨"b.txt", "u2", "out/b.txt", some 5, "s2", "o/r", "main"⟩]).1.get? 0 =
      some { task := ⟨"a.txt", "u1", "out/a.txt", some 3, "s1", "o/r", "main"⟩,
             success := false, error := some "HTTP 404: Not Found" } := rfl
  have hfail := (h.2 0 _ _ hget rfl).2 rfl rfl
  exact ⟨h.1, hget, hfail.1, hfail.2⟩

/-! ## C7: cache-hit short circuit -/

/-- C7: when caching is enabled and `is_file_cached` answers true for a
task, the worker immediately returns a result with `success = true`,
`from_cache = true`, `bytes_downloaded` equal to the task's expected size
and `integrity_verified = true`, and issues no HTTP fetch (fetch counter 0),
whatever the network would have answered. -/
theorem C7_cache_hit_short_circuit (cfg : DownloaderConfig) (env : CacheWriteEnv)
    (cache : CacheMap) (fs : Fs) (o : FetchOutcome) (task : DownloadTask) (s : Nat)
    (huse : cfg.use_cache = true)
    (hhit : (is_file_cached cache fs task.repo_full_name task.file_path task.ref
      task.sha (task.expected_size.getD 0) task.local_path).1 = true)
    (hsize : task.expected_size = some s) :
    download_single_file cfg env cache fs o task =
      (.ok { task := task, success := true, bytes_downloaded := s,
             from_cache := true, integrity_verified := true },
       0,
       (is_file_cached cache fs task.repo_full_name task.file_path task.ref
         task.sha (task.expected_size.getD 0) task.local_path).2) := by
  have hhit' : (is_file_cached cache fs task.repo_full_name task.file_path task.ref
      task.sha s task.local_path).1 = true := by simpa [hsize] using hhit
  simp [download_single_file, check_cache, huse, hhit', hsize]

/-- Witness for C7: a concrete cache-current task short-circuits even though
the network would answer HTTP 404. -/
theorem C7_cache_hit_short_circuit_witness :
    (is_file_cached (add_file_to_cache [] "o/r" "a.txt" "main" "sha1" 3 [] "t0" 0)
      (fun _ => some 3) "o/r" "a.txt" "main" "sha1" 3 "out/a.txt").1 = true ∧
    download_single_file {} ⟨[], "", 0⟩
      (add_file_to_cache [] "o/r" "a.txt" "main" "sha1" 3 [] "t0" 0)
      (fun _ => some 3) (.response 404 "Not Found" 0)
      ⟨"a.txt", "u1", "out/a.txt", some 3, "sha1", "o/r", "main"⟩ =
      (.ok { task := ⟨"a.txt", "u1", "out/a.txt", some 3, "sha1", "o/r", "main"⟩,
             success := true, bytes_downloaded := 3,
             from_cache := true, integrity_verified := true },
       0,
       (is_file_cached (add_file_to_cache [] "o/r" "a.txt" "main" "sha1" 3 [] "t0" 0)
         (fun _ => some 3) "o/r" "a.txt" "main" "sha1" 3 "out/a.txt").2) := by
  refine ⟨rfl, ?_⟩
  exact C7_cache_hit_short_circuit {} ⟨[], "", 0⟩
    (add_file_to_cache [] "o/r" "a.txt" "main" "sha1" 3 [] "t0" 0)
    (fun _ => some 3) (.response 404 "Not Found" 0)
    ⟨"a.txt", "u1", "out/a.txt", some 3, "sha1", "o/r", "main"⟩ 3 rfl rfl rfl

/-! ## C8: integrity verification is non-fatal -/

/-- C8: a task that streams to disk successfully (HTTP 200) but whose
post-download size verification fails (written bytes differ from the
expected size) still yields `success = true` with
`integrity_verified = false`; the verification failure is never escalated
into a task failure. -/
theorem C8_integrity_non_fatal (cfg : DownloaderConfig) (env : CacheWriteEnv)
    (cache : CacheMap) (fs : Fs) (task : DownloadTask) (reason : String) (b s : Nat)
    (hverify : cfg.verify_integrity = true)
    (hnohit : (if cfg.use_cache then check_cache cache fs task else (false, cache)).1 = false)
    (hsize : task.expected_size = some s) (hneq : b ≠ s) :
    (download_single_file cfg env cache fs (.response 200 reason b) task).1 =
      .ok { task := task, success := true, bytes_downloaded := b,
            integrity_verified := false } := by
  simp [download_single_file, hnohit, hverify, verify_file_integrity, hsize, hneq]

/-- Witness for C8: 5 bytes written against an expected size of 3 still
succeeds, flagged unverified. -/
theorem C8_integrity_non_fatal_witness :
    (download_single_file { use_cache := false } ⟨[], "", 0⟩ [] (fun _ => none)
      (.response 200 "OK" 5)
      ⟨"a.txt", "u1", "out/a.txt", some 3, "sha1", "o/r", "main"⟩).1 =
      .ok { task := ⟨"a.txt", "u1", "out/a.txt", some 3, "sha1", "o/r", "main"⟩,
            success := true, bytes_downloaded := 5, integrity_verified := false } :=
  C8_integrity_non_fatal { use_cache := false } ⟨[], "", 0⟩ [] (fun _ => none)
    ⟨"a.txt", "u1", "out/a.txt", some 3, "sha1", "o/r", "main"⟩ "OK" 5 3
    rfl rfl rfl (by decide)

/-! ## C6: adaptive delay computation -/

/-- The usage-scaling factor of `_calculate_adaptive_delay`, computed from
`usage_percentage`, coincides with thresholds stated on the used/limit
fraction itself (4/5 and 3/5), including the `limit = 0` guard (where both
sides yield factor 1). -/
theorem adaptive_factor_eq (r : RateLimitInfo) :
    (if usage_percentage r > 80 then (2 : ℚ)
     else if usage_percentage r > 60 then 3/2 else 1) =
    (if (r.used : ℚ) / (r.limit : ℚ) > 4/5 then (2 : ℚ)
     else if (r.used : ℚ) / (r.limit : ℚ) > 3/5 then 3/2 else 1) := by
  unfold usage_percentage
  by_cases h : r.limit = 0
  · have hz : ((r.limit : ℤ) : ℚ) = 0 := by rw [h]; norm_num
    simp [h, hz, div_zero]
    norm_num
  · have h80 : ((r.used : ℚ) / (r.limit : ℚ) * 100 > 80) ↔
        ((r.used : ℚ) / (r.limit : ℚ) > 4/5) := by
      constructor <;> intro hx <;> linarith
    have h60 : ((r.used : ℚ) / (r.limit : ℚ) * 100 > 60) ↔
        ((r.used : ℚ) / (r.limit : ℚ) > 3/5) := by
      constructor <;> intro hx <;> linarith
    simp [h, h80, h60]

/-- C6 counterexample: with `remaining = 50`, `buffer = 100` (buffer zone)
but `seconds_until_reset = 0`, the code returns the base delay 0.1, not
`min(60, seconds_until_reset / 10) = 0` as the claim's second branch
states. -/
theorem C6_buffer_zone_zero_reset :
    calculate_adaptive_delay 100 ⟨5000, 50, 100, 4950⟩ 100 = 1/10 ∧
    (⟨5000, 50, 100, 4950⟩ : RateLimitInfo).remaining - 100 ≤ 0 ∧
    calculate_adaptive_delay 100 ⟨5000, 50, 100, 4950⟩ 100 ≠
      min 60 (((seconds_until_reset ⟨5000, 50, 100, 4950⟩ 100 : ℤ) : ℚ) / 10) := by
  refine ⟨?_, by norm_num, ?_⟩
  · norm_num [calculate_adaptive_delay, seconds_until_reset, rate_limiter_base_delay]
  · norm_num [calculate_adaptive_delay, seconds_until_reset, rate_limiter_base_delay]

/-- C6 (amended): the adaptive delay is `seconds_until_reset + 1` (hence at
least `seconds_until_reset`) when `remaining ≤ 0`; the base delay 0.1 when
`remaining > 0` but `seconds_until_reset ≤ 0`; `min(60,
seconds_until_reset/10)` when `remaining > 0`, `seconds_until_reset > 0` and
`remaining - buffer ≤ 0`; and otherwise `min(30, max(0.1,
(seconds_until_reset/(remaining - buffer)) * factor))` with factor 2.0 when
used/limit > 80%, 1.5 when > 60%, and 1.0 otherwise. -/
theorem C6_adaptive_delay_cases (buffer : ℤ) (r : RateLimitInfo) (now : ℤ) :
    (r.remaining ≤ 0 →
      calculate_adaptive_delay buffer r now =
          ((seconds_until_reset r now : ℤ) : ℚ) + 1 ∧
      ((seconds_until_reset r now : ℤ) : ℚ) ≤ calculate_adaptive_delay buffer r now) ∧
    (0 < r.remaining → seconds_until_reset r now ≤ 0 →
      calculate_adaptive_delay buffer r now = 1/10) ∧
    (0 < r.remaining → 0 < seconds_until_reset r now → r.remaining - buffer ≤ 0 →
      calculate_adaptive_delay buffer r now =
        min 60 (((seconds_until_reset r now : ℤ) : ℚ) / 10)) ∧
    (0 < r.remaining → 0 < seconds_until_reset r now → 0 < r.remaining - buffer →
      calculate_adaptive_delay buffer r now =
        min 30 (max (1/10)
          ((((seconds_until_reset r now : ℤ) : ℚ) / ((r.remaining - buffer : ℤ) : ℚ)) *
            (if (r.used : ℚ) / (r.limit : ℚ) > 4/5 then 2
             else if (r.used : ℚ) / (r.limit : ℚ) > 3/5 then 3/2 else 1)))) := by
  refine ⟨fun h1 => ?_, fun h1 h2 => ?_, fun h1 h2 h3 => ?_, fun h1 h2 h3 => ?_⟩
  · constructor
    · simp [calculate_adaptive_delay, h1]
    · simp only [calculate_adaptive_delay, h1, if_pos]
      have : (0 : ℚ) ≤ 1 := by norm_num
      linarith
  · rw [calculate_adaptive_delay, if_neg (by omega), if_pos h2]
    norm_num [rate_limiter_base_delay]
  · rw [calculate_adaptive_delay, if_neg (by omega), if_neg (by omega), if_pos h3]
  · rw [calculate_adaptive_delay, if_neg (by omega), if_neg (by omega), if_neg (by omega)]
    rw [← adaptive_factor_eq r]
    norm_num [rate_limiter_base_delay, max_comm]

/-- Witness for C6 (amended) at one concrete snapshot per branch. -/
theorem C6_adaptive_delay_cases_witness :
    calculate_adaptive_delay 100 ⟨5000, 0, 110, 5000⟩ 100 = 11 ∧
    calculate_adaptive_delay 100 ⟨5000, 40, 100, 4960⟩ 100 = 1/10 ∧
    calculate_adaptive_delay 100 ⟨5000, 50, 200, 4950⟩ 100 = 10 ∧
    calculate_adaptive_delay 100 ⟨5000, 4000, 200, 1000⟩ 100 = 1/10 := by
  refine ⟨?_, ?_, ?_, ?_⟩
  · rw [((C6_adaptive_delay_cases 100 ⟨5000, 0, 110, 5000⟩ 100).1 (by norm_num)).1]
    norm_num [seconds_until_reset]
  · exact (C6_adaptive_delay_cases 100 ⟨5000, 40, 100, 4960⟩ 100).2.1 (by norm_num)
      (by norm_num [seconds_until_reset])
  · rw [(C6_adaptive_delay_cases 100 ⟨5000, 50, 200, 4950⟩ 100).2.2.1 (by norm_num)
      (by norm_num [seconds_until_reset]) (by norm_num)]
    norm_num [seconds_until_reset]
  · rw [(C6_adaptive_delay_cases 100 ⟨5000, 4000, 200, 1000⟩ 100).2.2.2 (by norm_num)
      (by norm_num [seconds_until_reset]) (by norm_num)]
    norm_num [seconds_until_reset]

/-! ## C9: pre-flight destination check -/

/-- C9 counterexample: with the destination existing and force off,
`download_folder_parallel` does not raise an `AlreadyExists` (or any) error
— even with a non-empty remote tree it returns the normal statistics value
`{"total_files": 0, "total_size": 0}` (an `Except.ok`, never an
`Except.error`). -/
theorem C9_no_already_exists_error :
    download_folder_parallel true false
      ⟨[⟨"a.txt", "u1", "out/a.txt", some 3, "s1", "o/r", "main"⟩], 2⟩
      {} ⟨[], "", 0⟩ [] (fun _ => none) (fun _ => .timeoutError) =
      .ok { total_files := 0, total_size := 0, removed_existing := false,
            dirs_listed := 0, tasks_scheduled := 0 } := rfl

/-- C9 (amended): if the destination folder already exists and force mode is
off, `download_folder_parallel` aborts by returning zero statistics
(`total_files = 0`, `total_size = 0`) — it raises no error — before any
directory is walked (`dirs_listed = 0`) or any task is scheduled
(`tasks_scheduled = 0`), whatever the remote tree holds; the existence check
happens once at entry: when it passes (destination absent, or force mode
removing it), the whole collection walk runs unconditionally. -/
theorem C9_dest_exists_early_return (collect : CollectOutcome)
    (cfg : DownloaderConfig) (env : CacheWriteEnv) (cache : CacheMap) (fs : Fs)
    (outcome : Nat → FetchOutcome) :
    (download_folder_parallel true false collect cfg env cache fs outcome =
      .ok { total_files := 0, total_size := 0, removed_existing := false,
            dirs_listed := 0, tasks_scheduled := 0 }) ∧
    (∀ res, download_folder_parallel false false collect cfg env cache fs outcome =
        .ok res → res.dirs_listed = collect.dir_listings) ∧
    (∀ res, download_folder_parallel true true collect cfg env cache fs outcome =
        .ok res → res.dirs_listed = collect.dir_listings ∧ res.removed_existing = true) := by
  refine ⟨rfl, fun res hres => ?_, fun res hres => ?_⟩
  · by_cases h : collect.tasks.isEmpty = true
    · rw [download_folder_parallel] at hres
      simp only [Bool.and_self, Bool.false_and, if_false, h, if_pos] at hres
      obtain rfl := (Except.ok.inj hres).symm
      rfl
    · rw [download_folder_parallel] at hres
      simp only [Bool.and_self, Bool.false_and, if_false, h] at hres
      obtain rfl := (Except.ok.inj hres).symm
      rfl
  · by_cases h : collect.tasks.isEmpty = true
    · rw [download_folder_parallel] at hres
      simp only [Bool.not_true, Bool.and_false, if_false, h, if_pos] at hres
      obtain rfl := (Except.ok.inj hres).symm
      exact ⟨rfl, rfl⟩
    · rw [download_folder_parallel] at hres
      simp only [Bool.not_true, Bool.and_false, if_false, h] at hres
      obtain rfl := (Except.ok.inj hres).symm
      exact ⟨rfl, rfl⟩

/-- Witness for C9 (amended) at a concrete one-file remote tree. -/
theorem C9_dest_exists_early_return_witness :
    (download_folder_parallel true false
      ⟨[⟨"b.txt", "u2", "out/b.txt", some 5, "s2", "o/r", "main"⟩], 3⟩
      {} ⟨[], "", 0⟩ [] (fun _ => none) (fun _ => .timeoutError) =
      .ok { total_files := 0, total_size := 0, removed_existing := false,
            dirs_listed := 0, tasks_scheduled := 0 }) ∧
    (download_folder_parallel false false
      ⟨[⟨"b.txt", "u2", "out/b.txt", some 5, "s2", "o/r", "main"⟩], 3⟩
      {} ⟨[], "", 0⟩ [] (fun _ => none) (fun _ => .timeoutError) =
      .ok { total_files := 0, total_size := 0, removed_existing := false,
            dirs_listed := 3, tasks_scheduled := 1 }) ∧
    (3 : Nat) = 3 := by
  have h := C9_dest_exists_early_return
    ⟨[⟨"b.txt", "u2", "out/b.txt", some 5, "s2", "o/r", "main"⟩], 3⟩
    {} ⟨[], "", 0⟩ [] (fun _ => none) (fun _ => .timeoutError)
  exact ⟨h.1, rfl, h.2.1 _ rfl⟩

end GhFolderDownload
